import Mathlib

/-!
Verification of the MeshPay opportunistic mesh relay and buffered-retry client.

This development shallowly embeds the data model and the operations of the
MeshPay repository (meshpay/nodes/mesh_utils.py, meshpay/nodes/client1.py,
meshpay/types/transaction.py) and proves or refutes the specification claims
about them.

Modelling conventions:
- Python str is String; UUIDs are modelled by their hex-string form, since the
  code round-trips them through str(order_id) for deduplication keys.
- Python int and float time values are modelled as Int (no claim depends on
  fractional time).
- Python set is Finset String; dict is an insertion-ordered association list,
  matching Python dict iteration order.
- A Python value of type Optional T is Option T.  The truthiness idiom
  (x or d) on strings is pyOrStr, which also treats the empty string as falsy.
- Code that can raise (payload parsing) runs in Except Unit; the caller
  (_process_message) swallows the exception, so an .error result means the
  handler aborted with no further effects.
-/

/-- Network address of a node (meshpay/types/common.py, dataclass Address).
The node_type enum is kept as its string tag. -/
structure Address where
  node_id : String
  ip_address : String
  port : Nat
  node_type : String
deriving DecidableEq, Repr

/-- Transaction status enum (meshpay/types/common.py, TransactionStatus). -/
inductive TransactionStatus where
  | PENDING
  | BUFFERED
  | CONFIRMED
  | REJECTED
  | FINALIZED
deriving DecidableEq, Repr

/-- Transfer order (meshpay/types/transaction.py, dataclass TransferOrder).
Field ttl is the lock validity in seconds (distinct from the relay hop ttl). -/
structure TransferOrder where
  order_id : String
  sender : String
  recipient : String
  token_address : String
  amount : Int
  sequence_number : Int
  timestamp : Int
  signature : Option String := none
  epoch : Int := 0
  ttl : Int := 30
deriving DecidableEq, Repr

/-- Confirmation order (meshpay/types/transaction.py, dataclass
ConfirmationOrder).  The dataclass annotates authority_signatures as a list of
str, but the client inserts the optional authority_signature fields of the
collected responses unchecked, so the element type is Option String here. -/
structure ConfirmationOrder where
  order_id : String
  transfer_order : TransferOrder
  authority_signatures : List (Option String)
  timestamp : Int
  status : TransactionStatus := TransactionStatus.PENDING
deriving DecidableEq, Repr

/-- Transfer request message (meshpay/messages.py, TransferRequestMessage). -/
structure TransferRequestMessage where
  transfer_order : TransferOrder
deriving DecidableEq, Repr

/-- Transfer response message (meshpay/messages.py, TransferResponseMessage). -/
structure TransferResponseMessage where
  transfer_order : TransferOrder
  success : Bool
  error_message : Option String := none
  authority_signature : Option String := none
deriving DecidableEq, Repr

/-- Confirmation request message (meshpay/messages.py,
ConfirmationRequestMessage). -/
structure ConfirmationRequestMessage where
  confirmation_order : ConfirmationOrder
deriving DecidableEq, Repr

/-- Inner payload of a relay bundle.  In Python this is a plain dict produced
by to_payload of one of the three message classes; the from_payload parsers
raise on a dict of the wrong shape, which the parse functions below model by
returning Except.error. -/
inductive InnerPayload where
  | transferRequest (req : TransferRequestMessage)
  | transferResponse (resp : TransferResponseMessage)
  | confirmationRequest (req : ConfirmationRequestMessage)
deriving DecidableEq, Repr

/-- String values of the MessageType enum members used by the relay engine
(meshpay/messages.py, class MessageType). -/
def MessageType.TRANSFER_REQUEST : String := "transfer_request"

/-- String value of MessageType.TRANSFER_RESPONSE. -/
def MessageType.TRANSFER_RESPONSE : String := "transfer_response"

/-- String value of MessageType.CONFIRMATION_REQUEST. -/
def MessageType.CONFIRMATION_REQUEST : String := "confirmation_request"

/-- Modelled from the spec: DEFAULT_RELAY_TTL is imported from
mn_wifi.services.core.config, which is not part of this repository; the spec
fixes its default to 8 maximum hops. -/
def DEFAULT_RELAY_TTL : Int := 8

/-- Mesh relay bundle (meshpay/messages.py, MeshRelayMessage). -/
structure MeshRelayMessage where
  original_sender_id : String
  origin_address : Address
  inner_message_type : String
  inner_payload : InnerPayload
  order_id : String
  ttl : Int
  hop_path : List String
deriving DecidableEq, Repr

/-- TransferResponseMessage.from_payload: succeeds only on a payload of the
response shape, raising (Except.error) otherwise. -/
def parseTransferResponse : InnerPayload → Except Unit TransferResponseMessage
  | InnerPayload.transferResponse r => Except.ok r
  | _ => Except.error ()

/-- ConfirmationRequestMessage.from_payload: succeeds only on a payload of the
confirmation-request shape. -/
def parseConfirmationRequest : InnerPayload → Except Unit ConfirmationRequestMessage
  | InnerPayload.confirmationRequest r => Except.ok r
  | _ => Except.error ()

/-- Python-string truthiness: x or d is d when x is None or the empty
string, and x itself otherwise. -/
def pyOrStr (x : Option String) (d : String) : String :=
  match x with
  | some s => if s = "" then d else s
  | none => d

/-- MeshMixin._relay_to_neighbors (mesh_utils.py lines 206-241): send the
bundle to every neighbour in the snapshot whose node_id is not in hop_path;
with ttl at most 0 nothing is sent.  The result is the list of attempted
sends (destination node_id, bundle); transport failures only affect the
success counter, not which sends are attempted. -/
def relayToNeighbors (neighbors : List (String × Address))
    (relay : MeshRelayMessage) : List (String × MeshRelayMessage) :=
  if relay.ttl ≤ 0 then []
  else (neighbors.filter (fun p => p.1 ∉ relay.hop_path)).map (fun p => (p.1, relay))

/-- MeshMixin._build_relay_message (mesh_utils.py lines 180-204).  The
sender_id default uses Python or (falsy check, pyOrStr); origin_address,
ttl and hop_path use an is-None check (Option.getD).  origin_address in the
source is a serialised Address dict, modelled by Address directly. -/
def buildRelayMessage (name : String) (address : Address) (inner_type : String)
    (inner_payload : InnerPayload) (order_id : String)
    (sender_id : Option String) (origin_address : Option Address)
    (ttl : Option Int) (hop_path : Option (List String)) : MeshRelayMessage :=
  { original_sender_id := pyOrStr sender_id name
    origin_address := origin_address.getD address
    inner_message_type := inner_type
    inner_payload := inner_payload
    order_id := order_id
    ttl := ttl.getD DEFAULT_RELAY_TTL
    hop_path := hop_path.getD [name] }

/-- Local-delivery event produced by the relay handler: which callback was
invoked and with what argument. -/
inductive DeliverEvent where
  | transferResponse (resp : TransferResponseMessage)
  | transferRequest (relay : MeshRelayMessage)
  | confirmation (order : ConfirmationOrder)
deriving DecidableEq, Repr

/-- Result of processing one received MESH_RELAY bundle. -/
structure MeshRelayResult where
  delivered : Option DeliverEvent
  seen : Finset String
  sent : List (String × MeshRelayMessage)
deriving DecidableEq

/-- The re-flood copy built by _handle_mesh_relay (mesh_utils.py lines
300-309): same bundle with ttl decremented and this node appended to the hop
path. -/
def nextRelay (name : String) (relay : MeshRelayMessage) : MeshRelayMessage :=
  { relay with ttl := relay.ttl - 1, hop_path := relay.hop_path ++ [name] }

/-- Local-delivery dispatch of _handle_mesh_relay (mesh_utils.py lines
276-297): route by inner_message_type.  A TRANSFER_RESPONSE is delivered iff
it originates from this node and the response callback is registered; a
TRANSFER_REQUEST iff the request callback is registered (authorities); a
CONFIRMATION_REQUEST iff the confirmation callback is registered and the
embedded transfer recipient is this node.  A parse failure raises. -/
def localDelivery (name : String) (hasResp hasReq hasConf : Bool)
    (relay : MeshRelayMessage) : Except Unit (Option DeliverEvent) :=
  if relay.inner_message_type = MessageType.TRANSFER_RESPONSE then
    if relay.original_sender_id = name ∧ hasResp = true then
      match parseTransferResponse relay.inner_payload with
      | Except.error e => Except.error e
      | Except.ok resp => Except.ok (some (DeliverEvent.transferResponse resp))
    else Except.ok none
  else if relay.inner_message_type = MessageType.TRANSFER_REQUEST then
    if hasReq = true then Except.ok (some (DeliverEvent.transferRequest relay))
    else Except.ok none
  else if relay.inner_message_type = MessageType.CONFIRMATION_REQUEST then
    if hasConf = true then
      match parseConfirmationRequest relay.inner_payload with
      | Except.error e => Except.error e
      | Except.ok req =>
        if req.confirmation_order.transfer_order.recipient = name then
          Except.ok (some (DeliverEvent.confirmation req.confirmation_order))
        else Except.ok none
    else Except.ok none
  else Except.ok none

/-- MeshMixin._handle_mesh_relay (mesh_utils.py lines 243-313).  Inputs: the
node name, which delivery callbacks are registered (the Python Optional
Callable arguments), the deduplication set seen_order_ids, the current
neighbour snapshot, and the received bundle.  Dedup check first (with the
transfer-response exception), then insertion into the dedup set, then local
delivery, then re-relay when ttl exceeds 1.  An Except.error models a
payload-parse exception escaping the handler, which in the source aborts the
re-relay as well. -/
def handleMeshRelay (name : String) (hasResp hasReq hasConf : Bool)
    (seen : Finset String) (neighbors : List (String × Address))
    (relay : MeshRelayMessage) : Except Unit MeshRelayResult :=
  if relay.order_id ∈ seen ∧
      ¬(relay.inner_message_type = MessageType.TRANSFER_RESPONSE ∧
        relay.original_sender_id = name) then
    Except.ok { delivered := none, seen := seen, sent := [] }
  else
    let seen1 := if relay.order_id ∈ seen then seen else insert relay.order_id seen
    let sent :=
      if relay.ttl > 1 then relayToNeighbors neighbors (nextRelay name relay)
      else []
    match localDelivery name hasResp hasReq hasConf relay with
    | Except.error e => Except.error e
    | Except.ok delivered =>
      Except.ok { delivered := delivered, seen := seen1, sent := sent }

/-- Sample address used by concrete witnesses below. -/
def sampleAddress : Address :=
  { node_id := "n1", ip_address := "10.0.0.1", port := 9000, node_type := "client" }

/-- Second sample address used by concrete witnesses below. -/
def sampleAddress2 : Address :=
  { node_id := "n2", ip_address := "10.0.0.2", port := 9000, node_type := "client" }

/-- Sample transfer order used by concrete witnesses below. -/
def sampleOrder : TransferOrder :=
  { order_id := "o1", sender := "c1", recipient := "r1", token_address := "XTZ",
    amount := 10, sequence_number := 1, timestamp := 0 }

/-- Sample relay bundle carrying a transfer request for sampleOrder. -/
def sampleRequestRelay : MeshRelayMessage :=
  { original_sender_id := "c1", origin_address := sampleAddress,
    inner_message_type := MessageType.TRANSFER_REQUEST,
    inner_payload := InnerPayload.transferRequest { transfer_order := sampleOrder },
    order_id := "o1", ttl := 5, hop_path := ["c1"] }

/-- Relay metadata stored on a buffered relay transaction
(client1.py retry loop).  In the source this is a plain dict; the retry loop
reads keys original_sender_id and origin_address by subscript and ttl and
hop_path through dict.get with defaults, so the latter two are Option here. -/
structure RelayMetadata where
  original_sender_id : String
  origin_address : Address
  ttl : Option Int := none
  hop_path : Option (List String) := none
deriving DecidableEq, Repr

/-- Buffered transaction awaiting quorum (meshpay/types/transaction.py,
dataclass BufferedTransaction).  signatures_received is a dict from authority
name to signature, modelled as an insertion-ordered association list with
distinct keys. -/
structure BufferedTransaction where
  order : TransferOrder
  signatures_received : List (String × String) := []
  signatures_required : Nat := 0
  created_at : Int := 0
  last_retry : Int := 0
  retry_count : Nat := 0
  status : TransactionStatus := TransactionStatus.BUFFERED
  is_relay : Bool := false
  relay_metadata : Option RelayMetadata := none
deriving DecidableEq, Repr

/-- BufferedTransaction.has_quorum (transaction.py lines 129-132). -/
def BufferedTransaction.has_quorum (bt : BufferedTransaction) : Bool :=
  bt.signatures_received.length ≥ bt.signatures_required

/-- BufferedTransaction.add_signature (transaction.py lines 134-138): record
the signature only if this authority name is not present yet, and return the
updated transaction together with has_quorum of the result. -/
def BufferedTransaction.add_signature (bt : BufferedTransaction)
    (authority_name : String) (signature : String) : BufferedTransaction × Bool :=
  let bt1 :=
    if (bt.signatures_received.lookup authority_name).isSome then bt
    else { bt with signatures_received := bt.signatures_received ++ [(authority_name, signature)] }
  (bt1, bt1.has_quorum)

/-- State of the buffered client (client1.py Client together with its
ClientState from meshpay/types/state.py).  Fields name, balance,
sequence_number, pending_transfer, committee, sent_certificates and
seen_order_ids live on self.state; transaction_queue and the cached
_quorum_threshold live on the Client object itself.  The committee is kept as
the list of authority names (only its length is consulted).  Note that the
code appends TransferResponseMessage values to sent_certificates, which is
what this model types it as. -/
structure Client where
  name : String
  address : Address
  balance : Int
  sequence_number : Int
  pending_transfer : Option TransferOrder
  committee : List String
  sent_certificates : List TransferResponseMessage
  seen_order_ids : Finset String
  transaction_queue : List (String × BufferedTransaction)
  quorum_threshold : Nat
deriving DecidableEq

/-- Client._calculate_quorum (client1.py lines 155-158).  The source computes
int(committee_size * 2 / 3) + 1 with Python float division; for every
committee size that could occur here (certainly all sizes up to 100) the
nearest-double rounding of 2n/3 stays strictly between consecutive integers
whenever 2n/3 is not an integer and is exact when it is, so truncation of the
float equals exact floor division, i.e. Nat division below. -/
def calculateQuorum (c : Client) : Nat :=
  c.committee.length * 2 / 3 + 1

/-- Client._validate_transfer_response (client1.py lines 249-257). -/
def validateTransferResponse (c : Client) (resp : TransferResponseMessage) : Bool :=
  if resp.transfer_order.sender ≠ c.name then false
  else if resp.transfer_order.sequence_number ≠ c.sequence_number then false
  else true

/-- In-place mutation of the buffered transaction stored under a key of the
transaction queue, as performed through the dict entry in Python; absent keys
leave the queue unchanged. -/
def updateQueueEntry (q : List (String × BufferedTransaction)) (key : String)
    (f : BufferedTransaction → BufferedTransaction) : List (String × BufferedTransaction) :=
  q.map (fun e => if e.1 = key then (e.1, f e.2) else e)

/-- Client._track_signature (client1.py lines 259-270): append the response to
sent_certificates, and if the order is queued, call add_signature on the
buffered transaction with authority name (resp.authority_signature or
"unknown") and signature (resp.authority_signature or ""). -/
def trackSignature (c : Client) (resp : TransferResponseMessage) : Client :=
  let c1 := { c with sent_certificates := c.sent_certificates ++ [resp] }
  let auth_name := pyOrStr resp.authority_signature "unknown"
  let sig := pyOrStr resp.authority_signature ""
  let q := updateQueueEntry c1.transaction_queue resp.transfer_order.order_id
    (fun bt => (bt.add_signature auth_name sig).1)
  { c1 with transaction_queue := q }

/-- Client._check_quorum (client1.py lines 272-278): count the collected
certificates whose embedded order id matches and compare against the cached
quorum threshold. -/
def checkQuorum (c : Client) (order_id : String) : Bool :=
  (c.sent_certificates.filter
    (fun cert => cert.transfer_order.order_id = order_id)).length ≥ c.quorum_threshold

/-- Client._validate_confirmation_order (client1.py lines 305-307), a
placeholder that accepts everything. -/
def validateConfirmationOrder (c : Client) (co : ConfirmationOrder) : Bool :=
  true

/-- Client.handle_confirmation_order (client1.py lines 309-331): when this
node is the recipient, credit the amount, drop the order id from the dedup
set, and delete any queue entry for it.  Returns the Bool result together
with the updated state.  The non-buffered client (client.py lines 237-256) is
identical except that it has no transaction queue. -/
def handleConfirmationOrder (c : Client) (co : ConfirmationOrder) : Bool × Client :=
  let transfer := co.transfer_order
  if transfer.recipient = c.name then
    if validateConfirmationOrder c co then
      let q := c.transaction_queue.filter (fun e => ¬ e.1 = transfer.order_id)
      (true,
        { c with balance := c.balance + transfer.amount,
                 seen_order_ids := c.seen_order_ids.erase transfer.order_id,
                 transaction_queue := q })
    else (false, c)
  else (false, c)

/-- Client.broadcast_confirmation (client1.py lines 333-375): with a pending
transfer and at least quorum-many matching certificates, build a CONFIRMED
ConfirmationOrder from the matching signatures, flood a CONFIRMATION_REQUEST
bundle, then clear pending_transfer, advance sequence_number, prune the
matching certificates and debit the amount.  Returns the new state and the
attempted sends. -/
def broadcastConfirmation (c : Client) (neighbors : List (String × Address))
    (now : Int) : Client × List (String × MeshRelayMessage) :=
  match c.pending_transfer with
  | none => (c, [])
  | some order =>
    let relevant_certs := c.sent_certificates.filter
      (fun cert => cert.transfer_order.order_id = order.order_id)
    if relevant_certs.length < c.quorum_threshold then (c, [])
    else
      let transfer_signatures := relevant_certs.map (fun cert => cert.authority_signature)
      let confirmation : ConfirmationOrder :=
        { order_id := order.order_id, transfer_order := order,
          authority_signatures := transfer_signatures, timestamp := now,
          status := TransactionStatus.CONFIRMED }
      let relay_msg := buildRelayMessage c.name c.address
        MessageType.CONFIRMATION_REQUEST
        (InnerPayload.confirmationRequest { confirmation_order := confirmation })
        order.order_id none none none none
      let sent := relayToNeighbors neighbors relay_msg
      let kept := c.sent_certificates.filter
        (fun cert => ¬ cert.transfer_order.order_id = order.order_id)
      ({ c with pending_transfer := none,
                sequence_number := c.sequence_number + 1,
                sent_certificates := kept,
                balance := c.balance - order.amount }, sent)

/-- Client._on_quorum_reached (client1.py lines 280-286): broadcast the
confirmation, then mark the queue entry FINALIZED and delete it. -/
def onQuorumReached (c : Client) (neighbors : List (String × Address)) (now : Int)
    (order_id : String) : Client × List (String × MeshRelayMessage) :=
  let r := broadcastConfirmation c neighbors now
  if (r.1.transaction_queue.lookup order_id).isSome then
    let q := updateQueueEntry r.1.transaction_queue order_id
      (fun bt => { bt with status := TransactionStatus.FINALIZED })
    ({ r.1 with transaction_queue := q.filter (fun e => ¬ e.1 = order_id) }, r.2)
  else r

/-- Client.handle_transfer_response (client1.py lines 288-299): validate,
track the signature, and on quorum with a pending transfer run the
quorum-reached handler.  Returns the Bool result, the new state and the
attempted sends. -/
def handleTransferResponse (c : Client) (neighbors : List (String × Address))
    (now : Int) (resp : TransferResponseMessage) :
    Bool × Client × List (String × MeshRelayMessage) :=
  if validateTransferResponse c resp then
    let c1 := trackSignature c resp
    if checkQuorum c1 resp.transfer_order.order_id && c1.pending_transfer.isSome then
      let r := onQuorumReached c1 neighbors now resp.transfer_order.order_id
      (true, r.1, r.2)
    else (true, c1, [])
  else (false, c, [])

/-- Client._finalize_buffered_transaction (client1.py lines 481-485): set the
pending transfer to the buffered order and broadcast the confirmation. -/
def finalizeBufferedTransaction (c : Client) (neighbors : List (String × Address))
    (now : Int) (btx : BufferedTransaction) : Client × List (String × MeshRelayMessage) :=
  broadcastConfirmation { c with pending_transfer := some btx.order } neighbors now

/-- Body of the retry loop for one queued transaction (client1.py lines
433-476).  Returns the updated client, the (possibly mutated) buffered
transaction, the attempted sends, and whether the transaction was marked
completed (to be popped from the queue at the end of the cycle). -/
def retryProcessTx (neighbors : List (String × Address)) (now : Int) (c : Client)
    (tx_id : String) (btx : BufferedTransaction) :
    Client × BufferedTransaction × List (String × MeshRelayMessage) × Bool :=
  if btx.status ≠ TransactionStatus.BUFFERED then (c, btx, [], false)
  else if btx.is_relay = true ∧ now - btx.created_at > 120 then (c, btx, [], true)
  else
    let btx1 := { btx with retry_count := btx.retry_count + 1, last_retry := now }
    let c1 := { c with seen_order_ids := insert tx_id (c.seen_order_ids.erase tx_id) }
    let request : TransferRequestMessage := { transfer_order := btx1.order }
    let relay_msg :=
      match btx1.is_relay, btx1.relay_metadata with
      | true, some md =>
          buildRelayMessage c1.name c1.address MessageType.TRANSFER_REQUEST
            (InnerPayload.transferRequest request) tx_id
            (some md.original_sender_id) (some md.origin_address)
            (some (md.ttl.getD DEFAULT_RELAY_TTL)) (some (md.hop_path.getD [c1.name]))
      | _, _ =>
          buildRelayMessage c1.name c1.address MessageType.TRANSFER_REQUEST
            (InnerPayload.transferRequest request) tx_id none none none none
    let sent := relayToNeighbors neighbors relay_msg
    if btx1.is_relay = false ∧ checkQuorum c1 tx_id = true then
      let btx2 := { btx1 with status := TransactionStatus.FINALIZED }
      let r := finalizeBufferedTransaction c1 neighbors now btx2
      (r.1, btx2, sent ++ r.2, true)
    else (c1, btx1, sent, false)

/-- Accumulator threaded through one retry cycle: the evolving client state,
the attempted sends, the ids marked completed, and the re-built queue entries
(the Python loop mutates the buffered objects in place and pops the completed
ids after the loop). -/
structure RetryAcc where
  client : Client
  sent : List (String × MeshRelayMessage)
  completed : List String
  entries : List (String × BufferedTransaction)
deriving DecidableEq

/-- One fold step of the retry cycle over a queue entry. -/
def retryStep (neighbors : List (String × Address)) (now : Int)
    (acc : RetryAcc) (e : String × BufferedTransaction) : RetryAcc :=
  let r := retryProcessTx neighbors now acc.client e.1 e.2
  { client := r.1,
    sent := acc.sent ++ r.2.2.1,
    completed := if r.2.2.2 then acc.completed ++ [e.1] else acc.completed,
    entries := acc.entries ++ [(e.1, r.2.1)] }

/-- One iteration of Client._retry_loop (client1.py lines 419-479): walk the
queued transactions in order, then pop every id marked completed. -/
def retryCycle (neighbors : List (String × Address)) (now : Int) (c : Client) :
    Client × List (String × MeshRelayMessage) :=
  let acc := c.transaction_queue.foldl (retryStep neighbors now)
    { client := c, sent := [], completed := [], entries := [] }
  let q := acc.entries.filter (fun e => e.1 ∉ acc.completed)
  ({ acc.client with transaction_queue := q }, acc.sent)

/-- Client.get_buffered_transactions (client1.py lines 491-493) under an
explicit heap model of Python reference semantics: the heap is a list of dict
objects indexed by reference, the client holds a reference to its
transaction_queue dict, and dict.copy() allocates a fresh object holding the
same entries and returns the new reference. -/
def heapRead (h : List (List (String × BufferedTransaction))) (r : Nat) :
    List (String × BufferedTransaction) :=
  h.getD r []

/-- Store new contents into the dict object at a reference. -/
def heapWrite (h : List (List (String × BufferedTransaction))) (r : Nat)
    (d : List (String × BufferedTransaction)) : List (List (String × BufferedTransaction)) :=
  h.set r d

/-- Client.get_buffered_transactions: return self.transaction_queue.copy(),
i.e. allocate a fresh dict with the same entries and hand back its
reference. -/
def getBufferedTransactions (h : List (List (String × BufferedTransaction)))
    (queueRef : Nat) : Nat × List (List (String × BufferedTransaction)) :=
  (h.length, h ++ [heapRead h queueRef])

/-- Sample transfer response signed by authority sigA, used by witnesses. -/
def sampleResponse : TransferResponseMessage :=
  { transfer_order := sampleOrder, success := true, authority_signature := some "sigA" }

/-- Sample transfer response signed by authority sigB, used by witnesses. -/
def sampleResponse2 : TransferResponseMessage :=
  { transfer_order := sampleOrder, success := true, authority_signature := some "sigB" }

/-- Sample buffered transaction for sampleOrder awaiting two signatures. -/
def sampleBuffered : BufferedTransaction :=
  { order := sampleOrder, signatures_required := 2 }

/-- Sample buffered transaction that has already credited authority sigA. -/
def sampleBufferedSigned : BufferedTransaction :=
  { sampleBuffered with signatures_received := [("sigA", "sigA")] }

/-- Sample client c1 with a committee of three and quorum threshold two. -/
def sampleClient : Client :=
  { name := "c1", address := sampleAddress, balance := 0, sequence_number := 1,
    pending_transfer := none, committee := ["a1", "a2", "a3"],
    sent_certificates := [], seen_order_ids := ∅,
    transaction_queue := [("o1", sampleBuffered)], quorum_threshold := 2 }

/-- Sample recipient client r1 (the recipient of sampleOrder). -/
def sampleRecipient : Client :=
  { sampleClient with name := "r1", transaction_queue := [] }

/-- Sample confirmation order for sampleOrder with two signatures. -/
def sampleConfirmation : ConfirmationOrder :=
  { order_id := "o1", transfer_order := sampleOrder,
    authority_signatures := [some "sigA", some "sigB"], timestamp := 0,
    status := TransactionStatus.CONFIRMED }

/-- Sample relay bundle carrying sampleResponse back to its originator c1. -/
def sampleResponseRelay : MeshRelayMessage :=
  { original_sender_id := "c1", origin_address := sampleAddress,
    inner_message_type := MessageType.TRANSFER_RESPONSE,
    inner_payload := InnerPayload.transferResponse sampleResponse,
    order_id := "o1", ttl := 2, hop_path := ["a1"] }

/-- Sample transfer response with a stale sequence number. -/
def sampleResponseStale : TransferResponseMessage :=
  { transfer_order := { sampleOrder with sequence_number := 99 },
    success := true, authority_signature := some "sigA" }
/-- Sample client with a pending transfer and two matching certificates. -/
def sampleClientPending : Client :=
  { sampleClient with
    pending_transfer := some sampleOrder
    sent_certificates := [sampleResponse, sampleResponse2] }
/-- Sample heap holding only the transaction-queue dict of sampleClient. -/
def sampleHeap : List (List (String × BufferedTransaction)) :=
  [[("o1", sampleBuffered)]]
/-- The buffered transaction after the retry-counter update of the retry
loop body (client1.py lines 442-443). -/
def retriedTx (now : Int) (btx : BufferedTransaction) : BufferedTransaction :=
  { btx with retry_count := btx.retry_count + 1, last_retry := now }
/-- The client after the dedup-set refresh of the retry loop body
(client1.py lines 448-449). -/
def retriedClient (tx_id : String) (c : Client) : Client :=
  { c with seen_order_ids := insert tx_id (c.seen_order_ids.erase tx_id) }
/-- The relay bundle re-built from stored relay metadata by the retry loop
(client1.py lines 453-462). -/
def retryRelayBundle (c : Client) (tx_id : String) (btx : BufferedTransaction)
    (md : RelayMetadata) : MeshRelayMessage :=
  buildRelayMessage c.name c.address MessageType.TRANSFER_REQUEST
    (InnerPayload.transferRequest { transfer_order := btx.order }) tx_id
    (some md.original_sender_id) (some md.origin_address)
    (some (md.ttl.getD DEFAULT_RELAY_TTL)) (some (md.hop_path.getD [c.name]))
/-- The fresh relay bundle built by the retry loop for the client's own
transactions (client1.py lines 464-468). -/
def retryFreshBundle (c : Client) (tx_id : String) (btx : BufferedTransaction) :
    MeshRelayMessage :=
  buildRelayMessage c.name c.address MessageType.TRANSFER_REQUEST
    (InnerPayload.transferRequest { transfer_order := btx.order }) tx_id
    none none none none
/-- Sample relayed buffered transaction stored for another node c9. -/
def sampleRelayTx : BufferedTransaction :=
  { order := sampleOrder
    signatures_required := 2
    created_at := 0
    last_retry := 0
    status := TransactionStatus.BUFFERED
    is_relay := true
    relay_metadata := some { original_sender_id := "c9", origin_address := sampleAddress, ttl := some 4, hop_path := some ["c9"] } }

/-- Sample client whose queue holds the relayed transaction. -/
def sampleRelayClient : Client :=
  { sampleClient with transaction_queue := [("o1", sampleRelayTx)] }

/-- Membership in the send list of _relay_to_neighbors: every attempted send
carries the relayed bundle itself and targets a node outside its hop path. -/
theorem mem_relayToNeighbors {neighbors : List (String × Address)}
    {relay : MeshRelayMessage} {p : String × MeshRelayMessage}
    (hp : p ∈ relayToNeighbors neighbors relay) :
    p.2 = relay ∧ p.1 ∉ relay.hop_path := by
  unfold relayToNeighbors at hp
  by_cases h : relay.ttl ≤ 0
  · rw [if_pos h] at hp
    cases hp
  · rw [if_neg h] at hp
    simp only [List.mem_map, List.mem_filter] at hp
    obtain ⟨a, ⟨ha1, ha2⟩, hEq⟩ := hp
    subst hEq
    simp only [decide_not] at ha2
    exact ⟨rfl, by simpa using ha2⟩

/-- C1: a MESH_RELAY bundle whose order_id is already in seen_order_ids is
discarded without local delivery (and without re-relay), except when the
inner message type is TRANSFER_RESPONSE and the original sender is this node,
in which case it is delivered to the transfer-response handler (provided that
handler is registered and the payload is a well-formed transfer response). -/
theorem c1_dedup_exception (name : String) (hasResp hasReq hasConf : Bool)
    (seen : Finset String) (neighbors : List (String × Address))
    (relay : MeshRelayMessage) (hseen : relay.order_id ∈ seen) :
    (¬(relay.inner_message_type = MessageType.TRANSFER_RESPONSE ∧
        relay.original_sender_id = name) →
      handleMeshRelay name hasResp hasReq hasConf seen neighbors relay =
        Except.ok { delivered := none, seen := seen, sent := [] }) ∧
    (∀ resp : TransferResponseMessage,
      relay.inner_message_type = MessageType.TRANSFER_RESPONSE →
      relay.original_sender_id = name →
      hasResp = true →
      relay.inner_payload = InnerPayload.transferResponse resp →
      ∃ res, handleMeshRelay name hasResp hasReq hasConf seen neighbors relay =
        Except.ok res ∧ res.delivered = some (DeliverEvent.transferResponse resp)) := by
  constructor
  · intro hexc
    unfold handleMeshRelay
    rw [if_pos ⟨hseen, hexc⟩]
  · intro resp h1 h2 h3 h4
    have hld : localDelivery name hasResp hasReq hasConf relay =
        Except.ok (some (DeliverEvent.transferResponse resp)) := by
      unfold localDelivery
      rw [if_pos h1, if_pos ⟨h2, h3⟩, h4]
      rfl
    have heq : handleMeshRelay name hasResp hasReq hasConf seen neighbors relay =
        Except.ok ⟨some (DeliverEvent.transferResponse resp), seen,
          if 1 < relay.ttl then relayToNeighbors neighbors (nextRelay name relay) else []⟩ := by
      unfold handleMeshRelay
      rw [if_neg (fun hc => hc.2 ⟨h1, h2⟩), if_pos hseen, hld]
    exact ⟨_, heq, rfl⟩

/-- Witness for C1 at a concrete duplicate transfer-response bundle. -/
theorem c1_dedup_exception_witness :
    ∃ res, handleMeshRelay "c1" true false true {"o1"} [] sampleResponseRelay =
      Except.ok res ∧
      res.delivered = some (DeliverEvent.transferResponse sampleResponse) :=
  (c1_dedup_exception "c1" true false true {"o1"} [] sampleResponseRelay
    (by decide)).2 sampleResponse rfl rfl rfl rfl

/-- C2 counterexample: starting from sampleClient (quorum threshold 2,
pending transfer none), handling the very same transfer response from the
single authority sigA twice makes the quorum check pass, even though only one
distinct authority identity was ever credited in the buffered transaction.
The claim that the quorum check counts at most one signature per distinct
authority is therefore false: _check_quorum counts every appended
certificate, duplicates included. -/
theorem c2_quorum_duplicate_counterexample :
    checkQuorum ((handleTransferResponse
        ((handleTransferResponse sampleClient [] 0 sampleResponse).2.1)
        [] 0 sampleResponse).2.1) "o1" = true ∧
    ((handleTransferResponse
        ((handleTransferResponse sampleClient [] 0 sampleResponse).2.1)
        [] 0 sampleResponse).2.1).transaction_queue.lookup "o1" =
      some sampleBufferedSigned := by decide

/-- C2 (amended): in the buffered transaction itself, only the first response
per distinct authority identity is credited: add_signature with an authority
name that is already present leaves the transaction unchanged. -/
theorem c2_first_signature_credited (bt : BufferedTransaction) (a s : String)
    (h : (bt.signatures_received.lookup a).isSome = true) :
    (bt.add_signature a s).1 = bt := by
  unfold BufferedTransaction.add_signature
  simp [h]

/-- Witness for C2 at a concrete buffered transaction. -/
theorem c2_first_signature_credited_witness :
    (sampleBufferedSigned.add_signature "sigA" "other").1 = sampleBufferedSigned :=
  c2_first_signature_credited sampleBufferedSigned "sigA" "other" (by decide)

/-- C3 counterexample: delivering the same ConfirmationOrder twice to the
recipient r1 credits the amount twice; the balance changes again after the
first application, so the handler is not idempotent. -/
theorem c3_confirmation_not_idempotent_counterexample :
    ((handleConfirmationOrder sampleRecipient sampleConfirmation).2).balance = 10 ∧
    ((handleConfirmationOrder
        ((handleConfirmationOrder sampleRecipient sampleConfirmation).2)
        sampleConfirmation).2).balance = 20 := by decide

/-- C3 (amended): every application of handle_confirmation_order whose
embedded recipient equals the node's name adds the transfer amount to the
balance; re-applying the same ConfirmationOrder therefore credits it again
rather than leaving the balance unchanged. -/
theorem c3_confirmation_credits_each_application (c : Client) (co : ConfirmationOrder)
    (h : co.transfer_order.recipient = c.name) :
    ((handleConfirmationOrder c co).2).balance = c.balance + co.transfer_order.amount := by
  simp [handleConfirmationOrder, validateConfirmationOrder, h]

/-- Witness for C3 at the concrete recipient client. -/
theorem c3_confirmation_credits_each_application_witness :
    ((handleConfirmationOrder sampleRecipient sampleConfirmation).2).balance =
      sampleRecipient.balance + sampleConfirmation.transfer_order.amount :=
  c3_confirmation_credits_each_application sampleRecipient sampleConfirmation (by decide)

/-- C4: for every committee size between 1 and 100 the quorum threshold
computed by the client equals the floor of two thirds of the size, plus one.
calculateQuorum embeds the Python expression int(n * 2 / 3) + 1, whose float
division agrees with exact floor division throughout this range. -/
theorem c4_quorum_formula (c : Client) (h1 : 1 ≤ c.committee.length)
    (h2 : c.committee.length ≤ 100) :
    calculateQuorum c = c.committee.length * 2 / 3 + 1 := rfl

/-- Witness for C4 at the concrete three-authority client. -/
theorem c4_quorum_formula_witness :
    calculateQuorum sampleClient = sampleClient.committee.length * 2 / 3 + 1 :=
  c4_quorum_formula sampleClient (by decide) (by decide)

/-- C9: a transfer response whose sender is not this client or whose sequence
number is not the current one is rejected: handle_transfer_response returns
False and the client state is unchanged, with nothing sent. -/
theorem c9_invalid_response_rejected (c : Client) (neighbors : List (String × Address))
    (now : Int) (resp : TransferResponseMessage)
    (h : resp.transfer_order.sender ≠ c.name ∨
      resp.transfer_order.sequence_number ≠ c.sequence_number) :
    handleTransferResponse c neighbors now resp = (false, c, []) := by
  have hv : validateTransferResponse c resp = false := by
    unfold validateTransferResponse
    split_ifs with h1 h2
    · rfl
    · rfl
    · push_neg at h1 h2
      rcases h with h | h
      · exact absurd h1 h
      · exact absurd h2 h
  simp [handleTransferResponse, hv]

/-- Witness for C9 at a concrete stale response. -/
theorem c9_invalid_response_rejected_witness :
    handleTransferResponse sampleClient [] 0 sampleResponseStale =
      (false, sampleClient, []) :=
  c9_invalid_response_rejected sampleClient [] 0 sampleResponseStale
    (Or.inr (by decide))

/-- C5 counterexample: the duplicate request bundle sampleRequestRelay
(already-seen order o1) has ttl 5 and an eligible neighbour n2 outside its
extended hop path, yet the handler sends nothing: the dedup check discards
the bundle before the re-flood step, so the claim that every received bundle
with ttl above 1 is re-flooded is false. -/
theorem c5_duplicate_not_reflooded_counterexample :
    1 < sampleRequestRelay.ttl ∧
    "n2" ∉ sampleRequestRelay.hop_path ++ ["n1"] ∧
    handleMeshRelay "n1" true true true {"o1"} [("n2", sampleAddress2)]
        sampleRequestRelay =
      Except.ok { delivered := none, seen := {"o1"}, sent := [] } := by
  refine ⟨by decide, by decide, ?_⟩
  rfl

/-- C5 (amended): provided the bundle survives the dedup check (its order_id
is not yet seen, or the transfer-response exception applies) and local
delivery does not raise, a bundle with ttl above 1 is re-flooded as the copy
with ttl decremented and this node appended to the hop path, sent exactly to
the neighbours outside the copy's hop path; a bundle with ttl at most 1 is
not re-flooded. -/
theorem c5_reflood_behavior (name : String) (hasResp hasReq hasConf : Bool)
    (seen : Finset String) (neighbors : List (String × Address))
    (relay : MeshRelayMessage)
    (hpass : relay.order_id ∉ seen ∨
      (relay.inner_message_type = MessageType.TRANSFER_RESPONSE ∧
        relay.original_sender_id = name)) :
    ∀ res, handleMeshRelay name hasResp hasReq hasConf seen neighbors relay =
        Except.ok res →
      ((nextRelay name relay).ttl = relay.ttl - 1 ∧
        (nextRelay name relay).hop_path = relay.hop_path ++ [name]) ∧
      (1 < relay.ttl →
        res.sent = (neighbors.filter
            (fun p => p.1 ∉ (nextRelay name relay).hop_path)).map
          (fun p => (p.1, nextRelay name relay))) ∧
      (relay.ttl ≤ 1 → res.sent = []) := by
  intro res hres
  have hcond : ¬(relay.order_id ∈ seen ∧
      ¬(relay.inner_message_type = MessageType.TRANSFER_RESPONSE ∧
        relay.original_sender_id = name)) := by
    rcases hpass with h | h
    · exact fun hc => h hc.1
    · exact fun hc => hc.2 h
  unfold handleMeshRelay at hres
  rw [if_neg hcond] at hres
  refine ⟨⟨rfl, rfl⟩, ?_, ?_⟩
  · intro ht
    cases hld : localDelivery name hasResp hasReq hasConf relay with
    | error e =>
      rw [hld] at hres
      cases hres
    | ok delivered =>
      rw [hld] at hres
      have hsent : res.sent =
          if 1 < relay.ttl then relayToNeighbors neighbors (nextRelay name relay)
          else [] := by
        cases hres
        rfl
      rw [hsent, if_pos ht]
      unfold relayToNeighbors
      rw [if_neg (by unfold nextRelay; simp only []; omega)]
  · intro ht
    cases hld : localDelivery name hasResp hasReq hasConf relay with
    | error e =>
      rw [hld] at hres
      cases hres
    | ok delivered =>
      rw [hld] at hres
      have hsent : res.sent =
          if 1 < relay.ttl then relayToNeighbors neighbors (nextRelay name relay)
          else [] := by
        cases hres
        rfl
      rw [hsent, if_neg (by omega)]

/-- Witness for C5: a fresh (not yet seen) request bundle with ttl 5 is
re-flooded to the eligible neighbour as the decremented copy. -/
theorem c5_reflood_behavior_witness :
    (⟨some (DeliverEvent.transferRequest sampleRequestRelay), {"o1"},
        [("n2", nextRelay "n1" sampleRequestRelay)]⟩ : MeshRelayResult).sent =
      ([("n2", sampleAddress2)].filter
          (fun p => p.1 ∉ (nextRelay "n1" sampleRequestRelay).hop_path)).map
        (fun p => (p.1, nextRelay "n1" sampleRequestRelay)) :=
  ((c5_reflood_behavior "n1" true true true ∅ [("n2", sampleAddress2)]
      sampleRequestRelay (Or.inl (by decide))) _ rfl).2.1 (by decide)

/-- C7: broadcast_confirmation with a pending transfer and at least
quorum-many matching certificates clears the pending transfer, advances the
sequence number by one, prunes exactly the certificates of the confirmed
order, debits the amount, and every emitted bundle is a CONFIRMATION_REQUEST
for that order. -/
theorem c7_broadcast_confirmation_effects (c : Client)
    (neighbors : List (String × Address)) (now : Int) (order : TransferOrder)
    (hp : c.pending_transfer = some order)
    (hq : c.quorum_threshold ≤ (c.sent_certificates.filter
      (fun cert => cert.transfer_order.order_id = order.order_id)).length) :
    (broadcastConfirmation c neighbors now).1.pending_transfer = none ∧
    (broadcastConfirmation c neighbors now).1.sequence_number = c.sequence_number + 1 ∧
    (broadcastConfirmation c neighbors now).1.sent_certificates =
      c.sent_certificates.filter
        (fun cert => ¬ cert.transfer_order.order_id = order.order_id) ∧
    (broadcastConfirmation c neighbors now).1.balance = c.balance - order.amount ∧
    ∀ p ∈ (broadcastConfirmation c neighbors now).2,
      p.2.inner_message_type = MessageType.CONFIRMATION_REQUEST ∧
      p.2.order_id = order.order_id := by
  unfold broadcastConfirmation
  simp only [hp]
  rw [if_neg (Nat.not_lt.mpr hq)]
  refine ⟨rfl, rfl, rfl, rfl, ?_⟩
  intro p hmem
  simp only [] at hmem
  have h2 := (mem_relayToNeighbors hmem).1
  rw [h2]
  exact ⟨rfl, rfl⟩

/-- Witness for C7 at the concrete pending client. -/
theorem c7_broadcast_confirmation_effects_witness :
    (broadcastConfirmation sampleClientPending [] 0).1.pending_transfer = none ∧
    (broadcastConfirmation sampleClientPending [] 0).1.sequence_number =
      sampleClientPending.sequence_number + 1 ∧
    (broadcastConfirmation sampleClientPending [] 0).1.sent_certificates =
      sampleClientPending.sent_certificates.filter
        (fun cert => ¬ cert.transfer_order.order_id = sampleOrder.order_id) ∧
    (broadcastConfirmation sampleClientPending [] 0).1.balance =
      sampleClientPending.balance - sampleOrder.amount ∧
    ∀ p ∈ (broadcastConfirmation sampleClientPending [] 0).2,
      p.2.inner_message_type = MessageType.CONFIRMATION_REQUEST ∧
      p.2.order_id = sampleOrder.order_id :=
  c7_broadcast_confirmation_effects sampleClientPending [] 0 sampleOrder rfl (by decide)

/-- Reading an appended list below the original length sees the original. -/
theorem getD_append_of_lt {α : Type} (l l2 : List α) (n : Nat) (d : α)
    (h : n < l.length) : (l ++ l2).getD n d = l.getD n d := by
  induction l generalizing n with
  | nil => cases h
  | cons a t ih =>
    cases n with
    | zero => rfl
    | succ m => exact ih m (Nat.lt_of_succ_lt_succ h)

/-- Reading a concatenation at the length of the front returns the appended
element. -/
theorem getD_concat_length {α : Type} (l : List α) (x d : α) :
    (l ++ [x]).getD l.length d = x := by
  induction l with
  | nil => rfl
  | cons a t ih => exact ih

/-- Setting the element just past the original list only touches the
appended cell. -/
theorem set_concat_length {α : Type} (l : List α) (x d : α) :
    (l ++ [x]).set l.length d = l ++ [d] := by
  induction l with
  | nil => rfl
  | cons a t ih => exact congrArg (List.cons a) ih

/-- C10: get_buffered_transactions hands out a reference to a fresh copy of
the transaction-queue dict: the returned reference differs from the internal
one, the copy holds the same entries, and any overwrite of the copy (adding
or removing entries) leaves the dict behind the internal reference
unchanged. -/
theorem c10_buffered_transactions_copy
    (h : List (List (String × BufferedTransaction))) (queueRef : Nat)
    (hlt : queueRef < h.length) :
    (getBufferedTransactions h queueRef).1 ≠ queueRef ∧
    heapRead (getBufferedTransactions h queueRef).2
      (getBufferedTransactions h queueRef).1 = heapRead h queueRef ∧
    ∀ d, heapRead (heapWrite (getBufferedTransactions h queueRef).2
        (getBufferedTransactions h queueRef).1 d) queueRef = heapRead h queueRef := by
  refine ⟨?_, ?_, ?_⟩
  · intro he
    rw [show (getBufferedTransactions h queueRef).1 = h.length from rfl] at he
    omega
  · show heapRead (h ++ [heapRead h queueRef]) h.length = heapRead h queueRef
    unfold heapRead
    exact getD_concat_length h (h.getD queueRef []) []
  · intro d
    show heapRead ((h ++ [heapRead h queueRef]).set h.length d) queueRef =
      heapRead h queueRef
    rw [set_concat_length h (heapRead h queueRef) d]
    unfold heapRead
    exact getD_append_of_lt h [d] queueRef [] hlt

/-- Witness for C10 at a concrete one-dict heap. -/
theorem c10_buffered_transactions_copy_witness :
    (getBufferedTransactions sampleHeap 0).1 ≠ 0 ∧
    heapRead (getBufferedTransactions sampleHeap 0).2
      (getBufferedTransactions sampleHeap 0).1 = heapRead sampleHeap 0 ∧
    ∀ d, heapRead (heapWrite (getBufferedTransactions sampleHeap 0).2
        (getBufferedTransactions sampleHeap 0).1 d) 0 = heapRead sampleHeap 0 :=
  c10_buffered_transactions_copy sampleHeap 0 (by decide)

/-- C6: every bundle put on the wire satisfies the relay invariant.  A fresh
bundle built by the submit path (all optional arguments defaulted) has ttl
equal to DEFAULT_RELAY_TTL and the duplicate-free hop path consisting of this
node alone, and every send of it targets a node outside its hop path.  The
re-flood step preserves the invariant: if the received bundle has ttl at most
DEFAULT_RELAY_TTL, a duplicate-free hop path, and does not already list this
node (which every compliant sender guarantees, since sends only target nodes
outside the hop path), then every bundle sent by the handler again has ttl at
most DEFAULT_RELAY_TTL, a duplicate-free hop path, and targets a node outside
its hop path. -/
theorem c6_bundle_invariant (name : String) (address : Address)
    (inner_type : String) (inner_payload : InnerPayload) (order_id : String)
    (hasResp hasReq hasConf : Bool) (seen : Finset String)
    (neighbors : List (String × Address)) (relay : MeshRelayMessage) :
    ((buildRelayMessage name address inner_type inner_payload order_id
        none none none none).ttl ≤ DEFAULT_RELAY_TTL ∧
      (buildRelayMessage name address inner_type inner_payload order_id
        none none none none).hop_path.Nodup ∧
      ∀ p ∈ relayToNeighbors neighbors
          (buildRelayMessage name address inner_type inner_payload order_id
            none none none none),
        p.2.ttl ≤ DEFAULT_RELAY_TTL ∧ p.2.hop_path.Nodup ∧ p.1 ∉ p.2.hop_path) ∧
    (relay.ttl ≤ DEFAULT_RELAY_TTL → relay.hop_path.Nodup →
      name ∉ relay.hop_path →
      ∀ res, handleMeshRelay name hasResp hasReq hasConf seen neighbors relay =
          Except.ok res →
        ∀ p ∈ res.sent,
          p.2.ttl ≤ DEFAULT_RELAY_TTL ∧ p.2.hop_path.Nodup ∧ p.1 ∉ p.2.hop_path) := by
  constructor
  · refine ⟨le_refl _, ?_, ?_⟩
    · exact List.nodup_singleton name
    · intro p hp
      obtain ⟨h2, h1⟩ := mem_relayToNeighbors hp
      rw [h2]
      exact ⟨le_refl _, List.nodup_singleton name, h1⟩
  · intro httl hnd hnm res hres p hp
    unfold handleMeshRelay at hres
    by_cases hcond : relay.order_id ∈ seen ∧
        ¬(relay.inner_message_type = MessageType.TRANSFER_RESPONSE ∧
          relay.original_sender_id = name)
    · rw [if_pos hcond] at hres
      cases hres
      cases hp
    · rw [if_neg hcond] at hres
      cases hld : localDelivery name hasResp hasReq hasConf relay with
      | error e =>
        rw [hld] at hres
        cases hres
      | ok delivered =>
        rw [hld] at hres
        cases hres
        simp only [] at hp
        by_cases httl1 : 1 < relay.ttl
        · rw [if_pos httl1] at hp
          obtain ⟨h2, h1⟩ := mem_relayToNeighbors hp
          rw [h2]
          have hnd2 : (nextRelay name relay).hop_path.Nodup := by
            unfold nextRelay
            refine List.Nodup.append hnd (List.nodup_singleton name) ?_
            intro a ha hb
            rw [List.mem_singleton] at hb
            subst hb
            exact hnm ha
          refine ⟨?_, hnd2, h1⟩
          show relay.ttl - 1 ≤ DEFAULT_RELAY_TTL
          omega
        · rw [if_neg httl1] at hp
          cases hp

/-- Witness for C6: the re-flooded copy of the concrete request bundle keeps
the invariant and is sent to a node outside its hop path. -/
theorem c6_bundle_invariant_witness :
    (nextRelay "n1" sampleRequestRelay).ttl ≤ DEFAULT_RELAY_TTL ∧
    (nextRelay "n1" sampleRequestRelay).hop_path.Nodup ∧
    "n2" ∉ (nextRelay "n1" sampleRequestRelay).hop_path :=
  (c6_bundle_invariant "n1" sampleAddress MessageType.TRANSFER_REQUEST
      (InnerPayload.transferRequest { transfer_order := sampleOrder }) "o1"
      true true true ∅ [("n2", sampleAddress2)] sampleRequestRelay).2
    (by decide) (by decide) (by decide) _ rfl
    ("n2", nextRelay "n1" sampleRequestRelay) (by decide)

/-- An expired relayed transaction is marked completed with no state change
and nothing sent. -/
theorem retryProcessTx_expired (neighbors : List (String × Address)) (now : Int)
    (c : Client) (tx_id : String) (btx : BufferedTransaction)
    (hb : btx.status = TransactionStatus.BUFFERED) (hr : btx.is_relay = true)
    (ht : 120 < now - btx.created_at) :
    retryProcessTx neighbors now c tx_id btx = (c, btx, [], true) := by
  unfold retryProcessTx
  rw [if_neg (by simp [hb]), if_pos ⟨hr, ht⟩]

/-- The completed list only grows along the retry fold. -/
theorem completed_subset_foldl (neighbors : List (String × Address)) (now : Int) :
    ∀ (l : List (String × BufferedTransaction)) (acc : RetryAcc) (x : String),
      x ∈ acc.completed → x ∈ (l.foldl (retryStep neighbors now) acc).completed := by
  intro l
  induction l with
  | nil => exact fun acc x hx => hx
  | cons e t ih =>
    intro acc x hx
    apply ih
    unfold retryStep
    dsimp only
    split
    · exact List.mem_append_left _ hx
    · exact hx

/-- Any queued transaction that is an expired relay ends up in the completed
list of the retry fold. -/
theorem mem_completed_foldl (neighbors : List (String × Address)) (now : Int) :
    ∀ (l : List (String × BufferedTransaction)) (acc : RetryAcc)
      (tx_id : String) (btx : BufferedTransaction),
      (tx_id, btx) ∈ l → btx.status = TransactionStatus.BUFFERED →
      btx.is_relay = true → 120 < now - btx.created_at →
      tx_id ∈ (l.foldl (retryStep neighbors now) acc).completed := by
  intro l
  induction l with
  | nil =>
    intro acc tx_id btx hmem
    cases hmem
  | cons e t ih =>
    intro acc tx_id btx hmem hb hr ht
    rcases List.mem_cons.mp hmem with he | ht2
    · have hstep : tx_id ∈ (retryStep neighbors now acc e).completed := by
        rw [← he]
        unfold retryStep
        rw [retryProcessTx_expired neighbors now acc.client tx_id btx hb hr ht]
        simp
      rw [List.foldl_cons]
      exact completed_subset_foldl neighbors now t (retryStep neighbors now acc e)
        tx_id hstep
    · exact ih (retryStep neighbors now acc e) tx_id btx ht2 hb hr ht

/-- broadcast_confirmation never touches the deduplication set. -/
theorem broadcastConfirmation_seen (c : Client) (neighbors : List (String × Address))
    (now : Int) :
    (broadcastConfirmation c neighbors now).1.seen_order_ids = c.seen_order_ids := by
  unfold broadcastConfirmation
  cases hpt : c.pending_transfer with
  | none => rfl
  | some order =>
    dsimp only
    split
    · rfl
    · rfl

/-- C8: in a retry cycle, a queued BUFFERED transaction that is a relayed
transaction older than 120 seconds is marked completed with nothing sent and
is absent from the queue after the cycle; any other BUFFERED transaction has
its retry count incremented, its last_retry set to the current time, its
order id removed from and re-inserted into seen_order_ids, and its
TRANSFER_REQUEST bundle re-submitted to the mesh, preserving
original_sender_id, origin_address, ttl and hop_path from relay_metadata when
it is a relayed transaction (with the defaults of dict.get when those keys
are absent), and building a fresh bundle otherwise. -/
theorem c8_retry_cycle_behavior (neighbors : List (String × Address)) (now : Int)
    (c : Client) (tx_id : String) (btx : BufferedTransaction)
    (hb : btx.status = TransactionStatus.BUFFERED) :
    (btx.is_relay = true → 120 < now - btx.created_at →
      retryProcessTx neighbors now c tx_id btx = (c, btx, [], true) ∧
      ((tx_id, btx) ∈ c.transaction_queue →
        ∀ e ∈ (retryCycle neighbors now c).1.transaction_queue, e.1 ≠ tx_id)) ∧
    (¬(btx.is_relay = true ∧ 120 < now - btx.created_at) →
      (retryProcessTx neighbors now c tx_id btx).2.1.retry_count = btx.retry_count + 1 ∧
      (retryProcessTx neighbors now c tx_id btx).2.1.last_retry = now ∧
      (retryProcessTx neighbors now c tx_id btx).1.seen_order_ids =
        insert tx_id (c.seen_order_ids.erase tx_id) ∧
      (∀ md, btx.is_relay = true → btx.relay_metadata = some md →
        md.original_sender_id ≠ "" →
        ∃ m, (retryProcessTx neighbors now c tx_id btx).2.2.1 =
            relayToNeighbors neighbors m ∧
          m.original_sender_id = md.original_sender_id ∧
          m.origin_address = md.origin_address ∧
          m.ttl = md.ttl.getD DEFAULT_RELAY_TTL ∧
          m.hop_path = md.hop_path.getD [c.name] ∧
          m.inner_message_type = MessageType.TRANSFER_REQUEST ∧
          m.order_id = tx_id) ∧
      (btx.is_relay = false →
        ∃ rest, (retryProcessTx neighbors now c tx_id btx).2.2.1 =
          relayToNeighbors neighbors (retryFreshBundle c tx_id btx) ++ rest)) := by
  constructor
  · intro hr ht
    refine ⟨retryProcessTx_expired neighbors now c tx_id btx hb hr ht, ?_⟩
    intro hmem e he
    intro heq
    have hcomp : tx_id ∈ (c.transaction_queue.foldl (retryStep neighbors now)
        { client := c, sent := [], completed := [], entries := [] }).completed :=
      mem_completed_foldl neighbors now c.transaction_queue _ tx_id btx hmem hb hr ht
    unfold retryCycle at he
    simp only [] at he
    rw [List.mem_filter] at he
    have hnot := he.2
    simp only [decide_not, Bool.not_eq_true', decide_eq_false_iff_not] at hnot
    exact hnot (heq ▸ hcomp)
  · intro hne
    obtain ⟨ord, sr, srq, ca, lr, rc, st, ir, rm⟩ := btx
    simp only [] at hb hne
    subst hb
    have h1 : ¬((⟨ord, sr, srq, ca, lr, rc, TransactionStatus.BUFFERED, ir, rm⟩ :
        BufferedTransaction).status ≠ TransactionStatus.BUFFERED) := by simp
    cases ir with
    | true =>
      cases rm with
      | some md =>
        have heq : retryProcessTx neighbors now c tx_id
            ⟨ord, sr, srq, ca, lr, rc, TransactionStatus.BUFFERED, true, some md⟩ =
            (retriedClient tx_id c,
              retriedTx now ⟨ord, sr, srq, ca, lr, rc, TransactionStatus.BUFFERED, true, some md⟩,
              relayToNeighbors neighbors (retryRelayBundle c tx_id
                ⟨ord, sr, srq, ca, lr, rc, TransactionStatus.BUFFERED, true, some md⟩ md),
              false) := by
          unfold retryProcessTx
          rw [if_neg h1, if_neg hne]
          rw [if_neg (fun hc => by simp at hc)]
          rfl
        rw [heq]
        refine ⟨rfl, rfl, rfl, ?_, ?_⟩
        · intro md2 hrel2 hmd2 hne2
          simp only [Option.some.injEq] at hmd2
          subst hmd2
          refine ⟨_, rfl, ?_, rfl, rfl, rfl, rfl, rfl⟩
          unfold retryRelayBundle buildRelayMessage pyOrStr
          simp [hne2]
        · intro hrel2
          cases hrel2
      | none =>
        have heq : retryProcessTx neighbors now c tx_id
            ⟨ord, sr, srq, ca, lr, rc, TransactionStatus.BUFFERED, true, none⟩ =
            (retriedClient tx_id c,
              retriedTx now ⟨ord, sr, srq, ca, lr, rc, TransactionStatus.BUFFERED, true, none⟩,
              relayToNeighbors neighbors (retryFreshBundle c tx_id
                ⟨ord, sr, srq, ca, lr, rc, TransactionStatus.BUFFERED, true, none⟩),
              false) := by
          unfold retryProcessTx
          rw [if_neg h1, if_neg hne]
          rw [if_neg (fun hc => by simp at hc)]
          rfl
        rw [heq]
        refine ⟨rfl, rfl, rfl, ?_, ?_⟩
        · intro md2 hrel2 hmd2 hne2
          cases hmd2
        · intro hrel2
          cases hrel2
    | false =>
      by_cases hq : checkQuorum (retriedClient tx_id c) tx_id = true
      · have heq : retryProcessTx neighbors now c tx_id
            ⟨ord, sr, srq, ca, lr, rc, TransactionStatus.BUFFERED, false, rm⟩ =
            ((finalizeBufferedTransaction (retriedClient tx_id c) neighbors now
                ⟨ord, sr, srq, ca, now, rc + 1, TransactionStatus.FINALIZED, false, rm⟩).1,
              ⟨ord, sr, srq, ca, now, rc + 1, TransactionStatus.FINALIZED, false, rm⟩,
              relayToNeighbors neighbors (retryFreshBundle c tx_id
                ⟨ord, sr, srq, ca, lr, rc, TransactionStatus.BUFFERED, false, rm⟩) ++
                (finalizeBufferedTransaction (retriedClient tx_id c) neighbors now
                  ⟨ord, sr, srq, ca, now, rc + 1, TransactionStatus.FINALIZED, false, rm⟩).2,
              true) := by
          unfold retryProcessTx
          rw [if_neg h1, if_neg hne]
          rw [if_pos ⟨rfl, hq⟩]
          rfl
        rw [heq]
        refine ⟨rfl, rfl, ?_, ?_, ?_⟩
        · unfold finalizeBufferedTransaction
          rw [broadcastConfirmation_seen]
          rfl
        · intro md2 hrel2 hmd2 hne2
          cases hrel2
        · intro hrel2
          exact ⟨_, rfl⟩
      · have heq : retryProcessTx neighbors now c tx_id
            ⟨ord, sr, srq, ca, lr, rc, TransactionStatus.BUFFERED, false, rm⟩ =
            (retriedClient tx_id c,
              retriedTx now ⟨ord, sr, srq, ca, lr, rc, TransactionStatus.BUFFERED, false, rm⟩,
              relayToNeighbors neighbors (retryFreshBundle c tx_id
                ⟨ord, sr, srq, ca, lr, rc, TransactionStatus.BUFFERED, false, rm⟩),
              false) := by
          unfold retryProcessTx
          rw [if_neg h1, if_neg hne]
          rw [if_neg (fun hc => hq hc.2)]
          rfl
        rw [heq]
        refine ⟨rfl, rfl, rfl, ?_, ?_⟩
        · intro md2 hrel2 hmd2 hne2
          cases hrel2
        · intro hrel2
          refine ⟨[], ?_⟩
          rw [List.append_nil]

/-- Witness for C8: a concrete expired relayed transaction is purged without
re-sending and disappears from the queue after the cycle. -/
theorem c8_retry_cycle_behavior_witness :
    retryProcessTx [] 200 sampleRelayClient "o1" sampleRelayTx =
      (sampleRelayClient, sampleRelayTx, [], true) ∧
    (("o1", sampleRelayTx) ∈ sampleRelayClient.transaction_queue →
      ∀ e ∈ (retryCycle [] 200 sampleRelayClient).1.transaction_queue, e.1 ≠ "o1") :=
  (c8_retry_cycle_behavior [] 200 sampleRelayClient "o1" sampleRelayTx rfl).1
    rfl (by decide)
